import Mathlib

/-!
Verification development for the MedQuest study-planner application
(GMaxWailord repository).  The definitions below are a shallow embedding
of the session-notification engine, the Pomodoro timer, the schedule
persistence layer and the tutor service, translated from `src/App.tsx`,
`src/index.tsx`, `src/unnamed/part_000` .. `part_004` and
`src/services/geminiService.ts`.
-/

namespace MedQuest

/-- A user-defined study block, from the `StudySession` shape used by
`src/App.tsx` (fields `id`, `subject`, `day`, `startTime`, `endTime`,
all strings; `day` is one of the English weekday names, the times are
`HH:mm` strings). -/
structure StudySession where
  id : String
  subject : String
  day : String
  startTime : String
  endTime : String
deriving Repr, DecidableEq

/-- A named collection of sessions, from the `Schedule` shape used by
`src/App.tsx` (fields `id`, `name`, `sessions`, `createdAt`). -/
structure Schedule where
  id : String
  name : String
  sessions : List StudySession
  createdAt : Nat
deriving Repr, DecidableEq

/-- Which boundary of a session an alert is about: `start` corresponds to
the `'start'` notification type of the source, `finish` to `'end'`
(`end` is a reserved word in Lean). -/
inductive Boundary where
  | start
  | finish
deriving Repr, DecidableEq

/-- An alert surfaced by the notification engine, identified by the
session id and the boundary kind.  The human-readable message text
(`` `START: ...` `` / `` `FINISH: ...` ``) differs only cosmetically
between the near-duplicate copies and is not part of the alert identity. -/
structure Alert where
  sessionId : String
  kind : Boundary
deriving Repr, DecidableEq

/-- The storage key of a boundary, as built by the engine:
`` `${session.id}-start` `` or `` `${session.id}-end` ``. -/
def boundaryKey (a : Alert) : String :=
  a.sessionId ++ (match a.kind with | .start => "-start" | .finish => "-end")

/-- The `lastNotified` marker of `src/App.tsx` line 49:
`{id: string, time: string} | null` (here the `null` case is `Option`). -/
structure Marker where
  id : String
  time : String
deriving Repr, DecidableEq

/-- The guard test `lastNotified?.id !== someId` of `src/App.tsx`
lines 131 and 134, as the Boolean `lastNotified?.id === someId`
(JavaScript optional chaining on `null` yields `undefined`, which is
never equal to a string id). -/
def markerIdEq : Option Marker → String → Bool
  | none, _ => false
  | some m, i => m.id == i

/-- The `DAYS` constant of `src/constants` (also `src/unnamed/part_005`):
Monday-first list of weekday names. -/
def DAYS : List String :=
  ["Monday", "Tuesday", "Wednesday", "Thursday", "Friday", "Saturday", "Sunday"]

/-- The current day computation
`DAYS[now.getDay() === 0 ? 6 : now.getDay() - 1]` of `src/App.tsx`
line 122, mapping the JavaScript day number (Sunday = 0) into `DAYS`. -/
def currentDayOf (jsDay : Nat) : String :=
  (DAYS.getD (if jsDay == 0 then 6 else jsDay - 1) "")

/-- Two-digit zero padding, as produced both by
`toLocaleTimeString('en-GB', { hour: '2-digit', minute: '2-digit' })`
(`src/App.tsx` line 123) and by `padStart(2, '0')`
(`src/unnamed/part_001` lines 216-218). -/
def pad2 (n : Nat) : String :=
  if n < 10 then "0" ++ toString n else toString n

/-- The current wall-clock `HH:mm` string compared against the session
fields. -/
def timeStrOf (h m : Nat) : String :=
  pad2 h ++ ":" ++ pad2 m

/-- One session check of the `src/App.tsx` notification poll
(lines 126-139).  `stale` is the `lastNotified` value captured by the
effect closure: every session in one tick is compared against it, while
`setLastNotified({...})` only replaces the pending next state carried in
the accumulator (React applies the last value set). -/
def appSessionStep (currentDay currentTimeStr : String) (stale : Option Marker)
    (acc : List Alert × Option Marker) (session : StudySession) :
    List Alert × Option Marker :=
  if session.day == currentDay then
    let startId := session.id ++ "-start"
    let endId := session.id ++ "-end"
    if session.startTime == currentTimeStr && !(markerIdEq stale startId) then
      (acc.1 ++ [⟨session.id, .start⟩], some ⟨startId, currentTimeStr⟩)
    else if session.endTime == currentTimeStr && !(markerIdEq stale endId) then
      (acc.1 ++ [⟨session.id, .finish⟩], some ⟨endId, currentTimeStr⟩)
    else acc
  else acc

/-- One tick of the Session Notification Engine of `src/App.tsx`
(lines 119-141): iterate over every schedule and every session, collect
the alerts fired by `triggerNotification` and the final `lastNotified`
value. -/
def appTick (schedules : List Schedule) (currentDay currentTimeStr : String)
    (last : Option Marker) : List Alert × Option Marker :=
  schedules.foldl
    (fun acc schedule =>
      schedule.sessions.foldl (appSessionStep currentDay currentTimeStr last) acc)
    ([], last)

/-- The interval period of the `src/App.tsx` poll (`setInterval(..., 5000)`,
line 141), in milliseconds. -/
def appPollIntervalMs : Nat := 5000

/-- The `lastNotified` record of `src/unnamed/part_001` line 145
(`Record<string, string>`), as an association list from boundary key to
the `HH:mm` string at which that boundary last fired. -/
def Rec : Type := List (String × String)

/-- Property lookup `lastNotified[key]` on the record (JavaScript object
lookup; a missing key yields `undefined`, here `none`). -/
def recLookup (m : List (String × String)) (k : String) : Option String :=
  (m.find? (fun p => p.1 == k)).map (fun p => p.2)

/-- The functional state update `prev => ({ ...prev, [key]: value })` of
`src/unnamed/part_001` lines 227 and 230: all previous keys kept, the
given key bound to the new value. -/
def recInsert (m : List (String × String)) (k v : String) :
    List (String × String) :=
  (m.filter (fun p => !(p.1 == k))) ++ [(k, v)]

/-- One session check of the `src/unnamed/part_001` notification poll
(lines 221-233).  The guard reads the stale closure record; the updates
are functional (`prev => ...`), so they accumulate in the pending state. -/
def part001SessionStep (currentDay currentTimeStr : String)
    (stale : List (String × String))
    (acc : List Alert × List (String × String)) (session : StudySession) :
    List Alert × List (String × String) :=
  if session.day == currentDay then
    let startId := session.id ++ "-start"
    let endId := session.id ++ "-end"
    if session.startTime == currentTimeStr
        && !(recLookup stale startId == some currentTimeStr) then
      (acc.1 ++ [⟨session.id, .start⟩], recInsert acc.2 startId currentTimeStr)
    else if session.endTime == currentTimeStr
        && !(recLookup stale endId == some currentTimeStr) then
      (acc.1 ++ [⟨session.id, .finish⟩], recInsert acc.2 endId currentTimeStr)
    else acc
  else acc

/-- One tick of the notification poll of `src/unnamed/part_001`
(lines 212-237). -/
def part001Tick (schedules : List Schedule) (currentDay currentTimeStr : String)
    (last : List (String × String)) : List Alert × List (String × String) :=
  schedules.foldl
    (fun acc schedule =>
      schedule.sessions.foldl (part001SessionStep currentDay currentTimeStr last) acc)
    ([], last)

/-- The interval period of the `src/unnamed/part_001` poll
(`setInterval(..., 10000)`, line 235), in milliseconds. -/
def part001PollIntervalMs : Nat := 10000

/-- Iterated polls of the `part_001` engine at a fixed day and `HH:mm`
string (polls within one wall-clock minute observe the same strings):
the list of per-tick alert lists and the final guard record. -/
def part001Polls (schedules : List Schedule) (currentDay currentTimeStr : String) :
    Nat → List (String × String) → List (List Alert) × List (String × String)
  | 0, last => ([], last)
  | n + 1, last =>
    let r := part001Tick schedules currentDay currentTimeStr last
    let rest := part001Polls schedules currentDay currentTimeStr n r.2
    (r.1 :: rest.1, rest.2)

/-- One session check of the `src/unnamed/part_000` notification poll
(lines 102-116): same single-marker guard as `src/App.tsx`
(the alert message text differs only cosmetically). -/
def part000SessionStep (currentDay currentTimeStr : String) (stale : Option Marker)
    (acc : List Alert × Option Marker) (session : StudySession) :
    List Alert × Option Marker :=
  if session.day == currentDay then
    let startId := session.id ++ "-start"
    let endId := session.id ++ "-end"
    if session.startTime == currentTimeStr && !(markerIdEq stale startId) then
      (acc.1 ++ [⟨session.id, .start⟩], some ⟨startId, currentTimeStr⟩)
    else if session.endTime == currentTimeStr && !(markerIdEq stale endId) then
      (acc.1 ++ [⟨session.id, .finish⟩], some ⟨endId, currentTimeStr⟩)
    else acc
  else acc

/-- One tick of the notification poll of `src/unnamed/part_000`
(lines 96-119). -/
def part000Tick (schedules : List Schedule) (currentDay currentTimeStr : String)
    (last : Option Marker) : List Alert × Option Marker :=
  schedules.foldl
    (fun acc schedule =>
      schedule.sessions.foldl (part000SessionStep currentDay currentTimeStr last) acc)
    ([], last)

/-- The interval period of the `src/unnamed/part_000` poll
(`setInterval(..., 5000)`, line 117), in milliseconds. -/
def part000PollIntervalMs : Nat := 5000

/-- One session check of the `src/index.tsx` notification poll
(lines 138-151): same single-marker guard as `src/App.tsx`. -/
def indexSessionStep (currentDay currentTimeStr : String) (stale : Option Marker)
    (acc : List Alert × Option Marker) (session : StudySession) :
    List Alert × Option Marker :=
  if session.day == currentDay then
    let startId := session.id ++ "-start"
    let endId := session.id ++ "-end"
    if session.startTime == currentTimeStr && !(markerIdEq stale startId) then
      (acc.1 ++ [⟨session.id, .start⟩], some ⟨startId, currentTimeStr⟩)
    else if session.endTime == currentTimeStr && !(markerIdEq stale endId) then
      (acc.1 ++ [⟨session.id, .finish⟩], some ⟨endId, currentTimeStr⟩)
    else acc
  else acc

/-- One tick of the notification poll of `src/index.tsx` (lines 132-154). -/
def indexTick (schedules : List Schedule) (currentDay currentTimeStr : String)
    (last : Option Marker) : List Alert × Option Marker :=
  schedules.foldl
    (fun acc schedule =>
      schedule.sessions.foldl (indexSessionStep currentDay currentTimeStr last) acc)
    ([], last)

/-- The interval period of the `src/index.tsx` poll (line 152), in
milliseconds. -/
def indexPollIntervalMs : Nat := 5000

/-- One session check of the `src/unnamed/part_002` notification poll
(lines 108-122): same single-marker guard as `src/App.tsx`. -/
def part002SessionStep (currentDay currentTimeStr : String) (stale : Option Marker)
    (acc : List Alert × Option Marker) (session : StudySession) :
    List Alert × Option Marker :=
  if session.day == currentDay then
    let startId := session.id ++ "-start"
    let endId := session.id ++ "-end"
    if session.startTime == currentTimeStr && !(markerIdEq stale startId) then
      (acc.1 ++ [⟨session.id, .start⟩], some ⟨startId, currentTimeStr⟩)
    else if session.endTime == currentTimeStr && !(markerIdEq stale endId) then
      (acc.1 ++ [⟨session.id, .finish⟩], some ⟨endId, currentTimeStr⟩)
    else acc
  else acc

/-- One tick of the notification poll of `src/unnamed/part_002`
(lines 103-125). -/
def part002Tick (schedules : List Schedule) (currentDay currentTimeStr : String)
    (last : Option Marker) : List Alert × Option Marker :=
  schedules.foldl
    (fun acc schedule =>
      schedule.sessions.foldl (part002SessionStep currentDay currentTimeStr last) acc)
    ([], last)

/-- The interval period of the `src/unnamed/part_002` poll (line 123), in
milliseconds. -/
def part002PollIntervalMs : Nat := 5000

/-- One session check of the `src/unnamed/part_004` notification poll
(lines 108-122): same single-marker guard as `src/App.tsx`. -/
def part004SessionStep (currentDay currentTimeStr : String) (stale : Option Marker)
    (acc : List Alert × Option Marker) (session : StudySession) :
    List Alert × Option Marker :=
  if session.day == currentDay then
    let startId := session.id ++ "-start"
    let endId := session.id ++ "-end"
    if session.startTime == currentTimeStr && !(markerIdEq stale startId) then
      (acc.1 ++ [⟨session.id, .start⟩], some ⟨startId, currentTimeStr⟩)
    else if session.endTime == currentTimeStr && !(markerIdEq stale endId) then
      (acc.1 ++ [⟨session.id, .finish⟩], some ⟨endId, currentTimeStr⟩)
    else acc
  else acc

/-- One tick of the notification poll of `src/unnamed/part_004`
(lines 103-125). -/
def part004Tick (schedules : List Schedule) (currentDay currentTimeStr : String)
    (last : Option Marker) : List Alert × Option Marker :=
  schedules.foldl
    (fun acc schedule =>
      schedule.sessions.foldl (part004SessionStep currentDay currentTimeStr last) acc)
    ([], last)

/-- The interval period of the `src/unnamed/part_004` poll (line 123), in
milliseconds. -/
def part004PollIntervalMs : Nat := 5000

/-- The Pomodoro mode, from the `TimerState` type: `'study' | 'break'`
(`break` is a reserved word in Lean, so the break mode is `breakTime`). -/
inductive TimerMode where
  | study
  | breakTime
deriving Repr, DecidableEq

/-- The `TimerState` of `src/App.tsx` line 52:
`{ isActive: boolean, timeLeft: number, mode: 'study' | 'break' }`. -/
structure TimerState where
  isActive : Bool
  timeLeft : Nat
  mode : TimerMode
deriving Repr, DecidableEq

/-- The mode flip `mode === 'study' ? 'break' : 'study'` of
`src/App.tsx` line 111. -/
def flipMode : TimerMode → TimerMode
  | .study => .breakTime
  | .breakTime => .study

/-- The notification types of `triggerNotification`:
`'start' | 'end' | 'success' | 'error'` (`'end'` is `finish` here). -/
inductive NotifType where
  | start
  | finish
  | success
  | error
deriving Repr, DecidableEq

/-- One step of the Pomodoro Timer Logic effect of `src/App.tsx`
(lines 100-116): while active with time remaining the 1-second interval
decrements `timeLeft`; when `timeLeft` reaches `0` the timer is
deactivated, the mode flips, the remaining time is reset (5 minutes when
entering break, 25 minutes when entering study) and an `'end'`-type
notification fires.  The step takes no schedule argument: the Pomodoro
alternation is independent of the schedule contents. -/
def appPomodoroStep (t : TimerState) : TimerState × Option NotifType :=
  if t.isActive && t.timeLeft > 0 then
    ({ t with timeLeft := t.timeLeft - 1 }, none)
  else if t.timeLeft == 0 then
    (⟨false, (match t.mode with | .study => 5 * 60 | .breakTime => 25 * 60),
      flipMode t.mode⟩, some NotifType.finish)
  else (t, none)

/-- The `handleTimerExpired` callback of `src/unnamed/part_001`
(lines 62-71), run when the worker countdown expires: flip the mode,
reset the time for the next mode, deactivate, and fire an `'end'`-type
notification. -/
def handleTimerExpired (prev : TimerState) : TimerState × NotifType :=
  let nextMode := flipMode prev.mode
  let nextTime := match nextMode with | .study => 25 * 60 | .breakTime => 5 * 60
  (⟨false, nextTime, nextMode⟩, NotifType.finish)

/-- The value stored in `localStorage` under `STORAGE_KEY`
(`'med_quest_v5_schedules'`), seen through `JSON.parse`: `absent` models
`getItem` returning `null`, `corrupt` models a stored string on which
`JSON.parse` throws, and `val l` models a stored serialization of the
schedule list `l` (`JSON.stringify` round-trips these records
faithfully). -/
inductive StoredValue where
  | absent
  | corrupt
  | val (schedules : List Schedule)
deriving Repr, DecidableEq

/-- The `useState` initializer for `schedules` of `src/App.tsx`
lines 25-32 (identical in `src/unnamed/part_001` lines 100-107):
`try { const saved = localStorage.getItem(STORAGE_KEY); return saved ?
JSON.parse(saved) : [] } catch (e) { return [] }`. -/
def loadSchedules : StoredValue → List Schedule
  | .absent => []
  | .corrupt => []
  | .val l => l

/-- The `handleCreateSchedule` list update of `src/App.tsx`
lines 169-186: a blank (whitespace-only) name is rejected before any
state change; otherwise a schedule with the trimmed name, no sessions
and the given fresh id and timestamp is appended. -/
def handleCreateSchedule (id : String) (name : String) (now : Nat)
    (schedules : List Schedule) : List Schedule :=
  if name.trim == "" then schedules
  else schedules ++ [⟨id, name.trim, [], now⟩]

/-- The schedule deletion of the `MenuView` `onDelete` callback of
`src/App.tsx` (`setSchedules(prev => prev.filter(s => s.id !== id))`). -/
def deleteSchedule (id : String) (schedules : List Schedule) : List Schedule :=
  schedules.filter (fun s => !(s.id == id))

/-- The `addSessionToActive` list update of `src/App.tsx` lines 206-223:
with no active schedule id the function returns before any state change;
otherwise every schedule whose id equals `activeScheduleId` gets the new
session (the given fields under a freshly generated id, passed here as
`newId`) appended to its `sessions`, and every other schedule is
returned unchanged. -/
def addSessionToActive (activeId : Option String)
    (newId subject day startTime endTime : String)
    (schedules : List Schedule) : List Schedule :=
  match activeId with
  | none => schedules
  | some aid =>
    schedules.map (fun s =>
      if s.id == aid then
        { s with sessions := s.sessions ++ [⟨newId, subject, day, startTime, endTime⟩] }
      else s)

/-- The `removeSessionFromActive` list update of `src/App.tsx`
lines 225-232: on the schedule whose id equals `activeScheduleId`
(`s.id === activeScheduleId` is false when the active id is `null`),
drop every session with the given session id. -/
def removeSessionFromActive (activeId : Option String) (sessionId : String)
    (schedules : List Schedule) : List Schedule :=
  schedules.map (fun s =>
    if (match activeId with | some aid => s.id == aid | none => false) then
      { s with sessions := s.sessions.filter (fun sess => !(sess.id == sessionId)) }
    else s)

/-- The four schedule-list mutations of the source. -/
inductive Mutation where
  | create (id name : String) (now : Nat)
  | delete (id : String)
  | addSession (activeId : Option String) (newId subject day startTime endTime : String)
  | removeSession (activeId : Option String) (sessionId : String)
deriving Repr

/-- The new schedule list after a mutation. -/
def applyMutation : Mutation → List Schedule → List Schedule
  | .create id name now, s => handleCreateSchedule id name now s
  | .delete id, s => deleteSchedule id s
  | .addSession aid nid subject day st en, s =>
    addSessionToActive aid nid subject day st en s
  | .removeSession aid sid, s => removeSessionFromActive aid sid s

/-- Whether the mutation reaches `setSchedules` (triggering the Sync to
Local Storage effect of `src/App.tsx` lines 55-57): `handleCreateSchedule`
returns early on a blank name and `addSessionToActive` returns early when
`activeScheduleId` is `null`; every other mutation calls `setSchedules`. -/
def mutationWrites : Mutation → Bool
  | .create _ name _ => !(name.trim == "")
  | .delete _ => true
  | .addSession aid _ _ _ _ _ => aid.isSome
  | .removeSession _ _ => true

/-- One mutation followed by the Sync to Local Storage effect
(`localStorage.setItem(STORAGE_KEY, JSON.stringify(schedules))`,
`src/App.tsx` lines 55-57): whenever `setSchedules` ran, the entire new
list is serialized to storage. -/
def persistStep (st : StoredValue) (schedules : List Schedule) (m : Mutation) :
    List Schedule × StoredValue :=
  let s2 := applyMutation m schedules
  if mutationWrites m then (s2, .val s2) else (s2, st)

/-- The browser notification permission: `'granted' | 'denied' | 'default'`. -/
inductive PermissionState where
  | granted
  | denied
  | defaultPerm
deriving Repr, DecidableEq

/-- The observable effects of one `triggerNotification` call. -/
structure DispatchEffects where
  toast : Option String
  audioPlayed : Bool
  vibrated : Bool
  systemNotificationPosted : Bool
deriving Repr, DecidableEq

/-- The `triggerNotification` dispatcher of `src/App.tsx` lines 146-167:
the in-app toast is always set; when `system` is true the audio cue is
played, the vibration cue is issued (when the platform exposes
`navigator.vibrate`, here `canVibrate`), and an OS-level notification is
posted exactly when the recorded permission is `'granted'`.  The session
start and end alerts of the notification engine call this with
`system = true` (`src/App.tsx` lines 132 and 135). -/
def triggerNotificationDispatch (perm : PermissionState) (canVibrate : Bool)
    (msg : String) (system : Bool) : DispatchEffects :=
  { toast := some msg
  , audioPlayed := system
  , vibrated := system && canVibrate
  , systemNotificationPosted :=
      system && (match perm with | .granted => true | _ => false) }

/-- The outcome of the Gemini `generateContent` call awaited inside
`getTutorResponse` (`src/services/geminiService.ts` lines 24-32):
`failure` models the await throwing (network or API error),
`response none` models a response object whose `text` is `undefined`,
and `response (some t)` a response with text `t`. -/
inductive ApiOutcome where
  | failure (message : String)
  | response (text : Option String)
deriving Repr, DecidableEq

/-- The fixed fallback message of the `catch` branch of
`getTutorResponse` (`src/services/geminiService.ts` line 42). -/
def fallbackMessage : String :=
  "The specialist node is temporarily unavailable. Check your connection or API configuration and try again."

/-- The `getTutorResponse` result of `src/services/geminiService.ts`
lines 5-44 as a function of the API outcome: a thrown error is caught
and mapped to the fallback; `if (!response || !response.text) throw`
sends an absent or empty text (both falsy in JavaScript) into the same
`catch`; otherwise the response text is returned.  A `null` response
object behaves as `response none` (`!response` and `!response.text`
reach the same `throw`). -/
def getTutorResponse : ApiOutcome → String
  | .failure _ => fallbackMessage
  | .response none => fallbackMessage
  | .response (some t) => if t == "" then fallbackMessage else t

/-- The firing decision of one session check of the `src/App.tsx` poll
(lines 127-137), in isolation: the alert the check surfaces, if any.
Within one tick every session is compared against the same stale
`lastNotified` closure value, so the decision depends only on the
session, the clock strings and that value. -/
def appSessionDecision (currentDay currentTimeStr : String) (stale : Option Marker)
    (session : StudySession) : Option Alert :=
  if session.day == currentDay then
    if session.startTime == currentTimeStr
        && !(markerIdEq stale (session.id ++ "-start")) then
      some ⟨session.id, .start⟩
    else if session.endTime == currentTimeStr
        && !(markerIdEq stale (session.id ++ "-end")) then
      some ⟨session.id, .finish⟩
    else none
  else none

/-! Helper lemmas about the engine folds. -/

/-- Folding the per-session step over every schedule is folding over the
concatenation of all session lists. -/
theorem foldl_sessions_eq_flatMap {γ : Type} (g : γ → StudySession → γ) :
    ∀ (l : List Schedule) (init : γ),
      l.foldl (fun acc schedule => schedule.sessions.foldl g acc) init
        = (l.flatMap (fun s => s.sessions)).foldl g init := by
  intro l
  induction l with
  | nil => intro init; rfl
  | cons x xs ih =>
    intro init
    rw [List.foldl_cons, List.flatMap_cons, List.foldl_append, ih]

/-- The alerts surfaced by one `src/App.tsx` session check are the
previous alerts followed by the check's own decision. -/
theorem appSessionStep_fst (d t : String) (stale : Option Marker)
    (acc : List Alert × Option Marker) (sess : StudySession) :
    (appSessionStep d t stale acc sess).1
      = acc.1 ++ (appSessionDecision d t stale sess).toList := by
  simp only [appSessionStep, appSessionDecision]
  split
  · split
    · simp
    · split <;> simp
  · simp

/-- Alerts of a fold of `src/App.tsx` session checks: previous alerts
followed by the decisions of the checked sessions. -/
theorem foldl_appSessionStep_fst (d t : String) (stale : Option Marker) :
    ∀ (l : List StudySession) (acc : List Alert × Option Marker),
      (l.foldl (appSessionStep d t stale) acc).1
        = acc.1 ++ l.filterMap (appSessionDecision d t stale) := by
  intro l
  induction l with
  | nil => intro acc; simp
  | cons s l ih =>
    intro acc
    rw [List.foldl_cons, ih, appSessionStep_fst, List.filterMap_cons]
    cases h : appSessionDecision d t stale s <;> simp

/-- The alert list of one `src/App.tsx` tick is the per-session firing
decision mapped over all sessions of all schedules. -/
theorem appTick_fst (S : List Schedule) (d t : String) (last : Option Marker) :
    (appTick S d t last).1
      = (S.flatMap (fun sch => sch.sessions)).filterMap
          (appSessionDecision d t last) := by
  unfold appTick
  rw [foldl_sessions_eq_flatMap, foldl_appSessionStep_fst]
  rfl

/-- Record lookup on a nonempty association list. -/
theorem recLookup_cons (hd : String × String) (tl : List (String × String))
    (b : String) :
    recLookup (hd :: tl) b = if hd.1 = b then some hd.2 else recLookup tl b := by
  by_cases h : hd.1 = b <;> simp [recLookup, h]

/-- Record lookup on the empty association list. -/
theorem recLookup_nil (b : String) : recLookup [] b = none := rfl

/-- Record update on a nonempty association list. -/
theorem recInsert_cons (hd : String × String) (tl : List (String × String))
    (k v : String) :
    recInsert (hd :: tl) k v
      = if hd.1 = k then recInsert tl k v else hd :: recInsert tl k v := by
  by_cases h : hd.1 = k <;> simp [recInsert, List.filter_cons, h]

/-- Lookup after a record update: the updated key maps to the new value,
every other key is unchanged. -/
theorem recLookup_recInsert (m : List (String × String)) (k v b : String) :
    recLookup (recInsert m k v) b = if b = k then some v else recLookup m b := by
  induction m with
  | nil =>
    show recLookup [(k, v)] b = _
    rw [recLookup_cons]
    by_cases h : b = k
    · simp [h]
    · have hk : ¬k = b := fun e => h e.symm
      simp [h, hk, recLookup_nil]
  | cons hd tl ih =>
    rw [recInsert_cons]
    by_cases hk : hd.1 = k
    · rw [if_pos hk, ih, recLookup_cons]
      by_cases hb : b = k
      · simp [hb]
      · have : ¬hd.1 = b := by rw [hk]; exact fun e => hb e.symm
        simp [hb, this]
    · rw [if_neg hk, recLookup_cons, recLookup_cons, ih]
      by_cases hd1 : hd.1 = b
      · have hb : ¬b = k := by rw [← hd1]; exact fun e => hk e
        simp [hd1, hb]
      · simp [hd1]

/-- A key already recorded at value `v` stays recorded at `v` after any
update writing that same value `v`. -/
theorem recLookup_recInsert_same (m : List (String × String)) (k v b : String)
    (h : recLookup m b = some v) : recLookup (recInsert m k v) b = some v := by
  rw [recLookup_recInsert]
  by_cases hb : b = k <;> simp [hb, h]

/-- Every record update of a `part_001` session check writes the current
time string, so a boundary already recorded at the current time string
stays so recorded. -/
theorem part001SessionStep_snd_inv (d t : String) (stale : List (String × String))
    (acc : List Alert × List (String × String)) (sess : StudySession) (b : String)
    (h : recLookup acc.2 b = some t) :
    recLookup (part001SessionStep d t stale acc sess).2 b = some t := by
  simp only [part001SessionStep]
  split
  · split
    · exact recLookup_recInsert_same _ _ _ _ h
    · split
      · exact recLookup_recInsert_same _ _ _ _ h
      · exact h
  · exact h

/-- A `part_001` session check never fires an alert whose boundary is
already recorded at the current time string in the stale guard record. -/
theorem part001SessionStep_fst_mem (d t : String) (stale : List (String × String))
    (acc : List Alert × List (String × String)) (sess : StudySession) (a : Alert)
    (hP : recLookup stale (boundaryKey a) = some t)
    (hmem : a ∈ (part001SessionStep d t stale acc sess).1) : a ∈ acc.1 := by
  simp only [part001SessionStep] at hmem
  split at hmem
  · split at hmem
    · rename_i hguard
      rw [List.mem_append] at hmem
      rcases hmem with h | h
      · exact h
      · exfalso
        rw [List.mem_singleton] at h
        subst h
        have : (recLookup stale (sess.id ++ "-start") == some t) = false := by
          have := (Bool.and_eq_true _ _).mp hguard
          simpa using this.2
        rw [beq_eq_false_iff_ne] at this
        exact this (by simpa [boundaryKey] using hP)
    · split at hmem
      · rename_i hguard
        rw [List.mem_append] at hmem
        rcases hmem with h | h
        · exact h
        · exfalso
          rw [List.mem_singleton] at h
          subst h
          have : (recLookup stale (sess.id ++ "-end") == some t) = false := by
            have := (Bool.and_eq_true _ _).mp hguard
            simpa using this.2
          rw [beq_eq_false_iff_ne] at this
          exact this (by simpa [boundaryKey] using hP)
      · exact hmem
  · exact hmem

/-- When a `part_001` session check fires an alert, the pending record
of the check maps that alert's boundary to the current time string. -/
theorem part001SessionStep_fired (d t : String) (stale : List (String × String))
    (acc : List Alert × List (String × String)) (sess : StudySession) (a : Alert)
    (hmem : a ∈ (part001SessionStep d t stale acc sess).1) :
    a ∈ acc.1
      ∨ recLookup (part001SessionStep d t stale acc sess).2 (boundaryKey a) = some t := by
  simp only [part001SessionStep] at hmem ⊢
  split at hmem <;> rename_i hday
  case isFalse => exact Or.inl hmem
  rw [if_pos hday]
  split at hmem <;> rename_i hstart
  · rw [if_pos hstart]
    rw [List.mem_append] at hmem
    rcases hmem with h | h
    · exact Or.inl h
    · rw [List.mem_singleton] at h
      subst h
      right
      simp only [boundaryKey]
      rw [recLookup_recInsert]
      simp
  · rw [if_neg hstart]
    split at hmem <;> rename_i hend
    · rw [if_pos hend]
      rw [List.mem_append] at hmem
      rcases hmem with h | h
      · exact Or.inl h
      · rw [List.mem_singleton] at h
        subst h
        right
        simp only [boundaryKey]
        rw [recLookup_recInsert]
        simp
    · rw [if_neg hend]
      exact Or.inl hmem

/-- A recorded boundary stays recorded at the current time string across
a fold of `part_001` session checks. -/
theorem part001_foldl_snd_inv (d t : String) (stale : List (String × String))
    (b : String) :
    ∀ (l : List StudySession) (acc : List Alert × List (String × String)),
      recLookup acc.2 b = some t →
      recLookup (l.foldl (part001SessionStep d t stale) acc).2 b = some t := by
  intro l
  induction l with
  | nil => intro acc h; exact h
  | cons s l ih =>
    intro acc h
    rw [List.foldl_cons]
    exact ih _ (part001SessionStep_snd_inv d t stale acc s b h)

/-- A fold of `part_001` session checks adds no alert whose boundary is
recorded at the current time string in the stale guard record. -/
theorem part001_foldl_fst_mem (d t : String) (stale : List (String × String))
    (a : Alert) (hP : recLookup stale (boundaryKey a) = some t) :
    ∀ (l : List StudySession) (acc : List Alert × List (String × String)),
      a ∉ acc.1 → a ∉ (l.foldl (part001SessionStep d t stale) acc).1 := by
  intro l
  induction l with
  | nil => intro acc h; exact h
  | cons s l ih =>
    intro acc h
    rw [List.foldl_cons]
    exact ih _ (fun hmem => h (part001SessionStep_fst_mem d t stale acc s a hP hmem))

/-- After a fold of `part_001` session checks, every alert it fired has
its boundary recorded at the current time string. -/
theorem part001_foldl_fired (d t : String) (stale : List (String × String))
    (a : Alert) :
    ∀ (l : List StudySession) (acc : List Alert × List (String × String)),
      a ∈ (l.foldl (part001SessionStep d t stale) acc).1 →
      a ∈ acc.1 ∨ recLookup (l.foldl (part001SessionStep d t stale) acc).2
          (boundaryKey a) = some t := by
  intro l
  induction l with
  | nil => intro acc h; exact Or.inl h
  | cons s l ih =>
    intro acc h
    rw [List.foldl_cons] at h ⊢
    rcases ih _ h with h2 | h2
    · rcases part001SessionStep_fired d t stale acc s a h2 with h3 | h3
      · exact Or.inl h3
      · exact Or.inr (part001_foldl_snd_inv d t stale _ l _ h3)
    · exact Or.inr h2

/-- A boundary recorded at the current time string is never fired by a
`part_001` tick at that time string. -/
theorem part001Tick_no_fire (S : List Schedule) (d t : String)
    (m : List (String × String)) (a : Alert)
    (h : recLookup m (boundaryKey a) = some t) :
    a ∉ (part001Tick S d t m).1 := by
  unfold part001Tick
  rw [foldl_sessions_eq_flatMap]
  exact part001_foldl_fst_mem d t m a h _ _ (List.not_mem_nil a)

/-- A boundary recorded at the current time string stays recorded after
a `part_001` tick at that time string. -/
theorem part001Tick_snd_inv (S : List Schedule) (d t : String)
    (m : List (String × String)) (b : String)
    (h : recLookup m b = some t) :
    recLookup (part001Tick S d t m).2 b = some t := by
  unfold part001Tick
  rw [foldl_sessions_eq_flatMap]
  exact part001_foldl_snd_inv d t m b _ _ h

/-- After a `part_001` tick, every fired alert has its boundary recorded
at the current time string. -/
theorem part001Tick_fired (S : List Schedule) (d t : String)
    (m : List (String × String)) (a : Alert)
    (h : a ∈ (part001Tick S d t m).1) :
    recLookup (part001Tick S d t m).2 (boundaryKey a) = some t := by
  unfold part001Tick at h ⊢
  rw [foldl_sessions_eq_flatMap] at h ⊢
  rcases part001_foldl_fired d t m a _ _ h with h2 | h2
  · exact absurd h2 (List.not_mem_nil a)
  · exact h2

/-- Across any number of further `part_001` polls at the same time
string, a boundary recorded at that time string never fires. -/
theorem part001Polls_no_fire (S : List Schedule) (d t : String) (a : Alert) :
    ∀ (n : Nat) (m : List (String × String)),
      recLookup m (boundaryKey a) = some t →
      ∀ al ∈ (part001Polls S d t n m).1, a ∉ al := by
  intro n
  induction n with
  | zero => intro m _ al hal; simp [part001Polls] at hal
  | succ n ih =>
    intro m hm al hal
    simp only [part001Polls, List.mem_cons] at hal
    rcases hal with h | h
    · subst h
      exact part001Tick_no_fire S d t m a hm
    · exact ih _ (part001Tick_snd_inv S d t m _ hm) al h

/-! Claim C1: duplicate-alert suppression within a minute. -/

/-- C1 counterexample: in the `src/App.tsx` engine the claim fails with
two sessions sharing a start minute.  Both sessions `a` and `b` start
Monday 09:00; on the first poll both start alerts fire and the single
`lastNotified` marker ends at `b-start`; on the next poll of the same
minute the guard `lastNotified?.id !== 'a-start'` passes again and the
engine fires the start alert of session `a` a second time. -/
theorem app_refire_within_minute_counterexample :
    let S : List Schedule :=
      [⟨"p", "Plan", [⟨"a", "Math", "Monday", "09:00", "10:00"⟩,
                      ⟨"b", "Physics", "Monday", "09:00", "11:00"⟩], 0⟩]
    let t1 := appTick S "Monday" "09:00" none
    let t2 := appTick S "Monday" "09:00" t1.2
    (⟨"a", Boundary.start⟩ : Alert) ∈ t1.1
      ∧ (⟨"a", Boundary.start⟩ : Alert) ∈ t2.1 := by decide

/-- C1 (amended): in the record-keyed engine of `src/unnamed/part_001`,
once the engine has fired the start (respectively end) alert for a
session in a given minute, no later poll within that same minute fires
the same alert for that session again, for every schedule list, any
number of sessions sharing the boundary minute and any prior guard
record. -/
theorem part001_no_refire_within_minute :
    ∀ (S : List Schedule) (day t : String) (last : List (String × String)) (a : Alert),
      a ∈ (part001Tick S day t last).1 →
      ∀ n, ∀ al ∈ (part001Polls S day t n (part001Tick S day t last).2).1, a ∉ al := by
  intro S day t last a ha n
  exact part001Polls_no_fire S day t a n _ (part001Tick_fired S day t last a ha)

/-- C1 witness: a session starting Monday 09:00 fires on the first poll
of that minute and on none of the three following polls. -/
theorem part001_no_refire_within_minute_witness :
    (⟨"a", Boundary.start⟩ : Alert) ∈
        (part001Tick [⟨"p", "Plan", [⟨"a", "Math", "Monday", "09:00", "10:00"⟩], 0⟩]
          "Monday" "09:00" []).1
      ∧ ∀ al ∈ (part001Polls [⟨"p", "Plan", [⟨"a", "Math", "Monday", "09:00", "10:00"⟩], 0⟩]
          "Monday" "09:00" 3
          (part001Tick [⟨"p", "Plan", [⟨"a", "Math", "Monday", "09:00", "10:00"⟩], 0⟩]
            "Monday" "09:00" []).2).1,
        (⟨"a", Boundary.start⟩ : Alert) ∉ al :=
  ⟨by decide,
    part001_no_refire_within_minute
      [⟨"p", "Plan", [⟨"a", "Math", "Monday", "09:00", "10:00"⟩], 0⟩]
      "Monday" "09:00" [] ⟨"a", Boundary.start⟩ (by decide) 3⟩

/-! Claim C2: the alert firing condition. -/

/-- C2 counterexample: the end-alert direction of the claimed `iff`
fails for a session whose `startTime` equals its `endTime`.  At Monday
09:00 with an empty guard, the session's day matches, its `endTime`
matches the clock and the guard permits the end alert, yet the engine
does not surface it: the `else if` gives the start comparison
precedence. -/
theorem app_end_alert_shadowed_counterexample :
    let sess : StudySession := ⟨"a", "Math", "Monday", "09:00", "09:00"⟩
    let S : List Schedule := [⟨"p", "Plan", [sess], 0⟩]
    (sess.day = "Monday" ∧ sess.endTime = "09:00"
        ∧ markerIdEq none (sess.id ++ "-end") = false)
      ∧ (⟨"a", Boundary.finish⟩ : Alert) ∉ (appTick S "Monday" "09:00" none).1 := by
  decide

/-- C2 (amended): on each poll of the `src/App.tsx` engine, the fired
alerts are exactly the per-session decisions over all sessions of all
schedules; a start alert fires iff the session's day equals the current
day, its `startTime` equals the current `HH:mm` string and the duplicate
guard permits it; an end alert fires iff the day matches, the `endTime`
matches, the guard permits it, and the start branch of that same session
did not fire on that check (start takes precedence via `else if`); a
session whose day or time strings do not match the clock never fires. -/
theorem appTick_alert_characterization :
    ∀ (S : List Schedule) (day t : String) (last : Option Marker) (sess : StudySession),
      ((appTick S day t last).1
          = (S.flatMap (fun sch => sch.sessions)).filterMap (appSessionDecision day t last)) ∧
      (appSessionDecision day t last sess = some ⟨sess.id, Boundary.start⟩
          ↔ sess.day = day ∧ sess.startTime = t
            ∧ markerIdEq last (sess.id ++ "-start") = false) ∧
      (appSessionDecision day t last sess = some ⟨sess.id, Boundary.finish⟩
          ↔ sess.day = day ∧ sess.endTime = t
            ∧ markerIdEq last (sess.id ++ "-end") = false
            ∧ ¬(sess.startTime = t ∧ markerIdEq last (sess.id ++ "-start") = false)) ∧
      ((sess.day ≠ day ∨ (sess.startTime ≠ t ∧ sess.endTime ≠ t))
          → appSessionDecision day t last sess = none) := by
  intro S day t last sess
  refine ⟨appTick_fst S day t last, ?_, ?_, ?_⟩
  · constructor
    · intro h
      simp only [appSessionDecision] at h
      split at h
      · split at h
        · rename_i hday hstart
          rw [Bool.and_eq_true, Bool.not_eq_true'] at hstart
          exact ⟨beq_iff_eq.mp hday, beq_iff_eq.mp hstart.1, hstart.2⟩
        · split at h
          · simp at h
          · simp at h
      · simp at h
    · rintro ⟨h1, h2, h3⟩
      simp [appSessionDecision, h1, h2, h3]
  · constructor
    · intro h
      simp only [appSessionDecision] at h
      split at h
      · split at h
        · simp at h
        · split at h
          · rename_i hday hstart hend
            rw [Bool.and_eq_true, Bool.not_eq_true'] at hend
            refine ⟨beq_iff_eq.mp hday, beq_iff_eq.mp hend.1, hend.2, ?_⟩
            intro hc
            apply hstart
            rw [Bool.and_eq_true, Bool.not_eq_true']
            exact ⟨beq_iff_eq.mpr hc.1, hc.2⟩
          · simp at h
      · simp at h
    · rintro ⟨h1, h2, h3, h4⟩
      have hc : (sess.startTime == t && !(markerIdEq last (sess.id ++ "-start"))) = false := by
        cases hv : (sess.startTime == t && !(markerIdEq last (sess.id ++ "-start")))
        · rfl
        · exfalso
          rw [Bool.and_eq_true, Bool.not_eq_true'] at hv
          exact h4 ⟨beq_iff_eq.mp hv.1, hv.2⟩
      simp [appSessionDecision, h1, h2, h3, hc]
  · intro h
    rcases h with h | ⟨h1, h2⟩
    · simp [appSessionDecision, h]
    · simp [appSessionDecision, h1, h2]

/-- C2 witness: a session on the wrong day decides no alert. -/
theorem appTick_alert_characterization_witness :
    appSessionDecision "Monday" "09:00" none ⟨"a", "Math", "Tuesday", "09:00", "10:00"⟩
      = none :=
  (appTick_alert_characterization [] "Monday" "09:00" none
      ⟨"a", "Math", "Tuesday", "09:00", "10:00"⟩).2.2.2 (Or.inl (by decide))

/-! Claim C3: the duplicate guard is claimed to be per-minute. -/

/-- C3 evaluation at the failing input: a session starting Monday 09:00
whose start alert already fired at an earlier occurrence of that minute
(the previous week), so the guard holds `a-start` at `09:00`.  At the
next matching minute the claim (and the spec's "not already notified for
this minute") say the alert fires again; both engines fire nothing:
`src/App.tsx` compares only the stored marker id and never reads the
stored time, and `src/unnamed/part_001` compares the stored `HH:mm`
string, which matches again one week later. -/
theorem guard_not_per_minute_evaluation :
    (appTick [⟨"p", "Plan", [⟨"a", "Math", "Monday", "09:00", "10:00"⟩], 0⟩]
        "Monday" "09:00" (some ⟨"a-start", "09:00"⟩)).1 = []
    ∧ (part001Tick [⟨"p", "Plan", [⟨"a", "Math", "Monday", "09:00", "10:00"⟩], 0⟩]
        "Monday" "09:00" [("a-start", "09:00")]).1 = [] := by decide

/-! Claim C4: Pomodoro alternation. -/

/-- C4: when the countdown reaches zero, the `src/App.tsx` Pomodoro
effect deactivates the timer, flips the mode, resets the remaining time
(5 minutes entering break, 25 minutes entering study) and emits an
end-type notification; the `handleTimerExpired` callback of
`src/unnamed/part_001` produces the same successor state.  Neither step
takes the schedule list: the alternation is independent of the schedule
contents. -/
theorem pomodoro_alternation :
    ∀ (t : TimerState), t.timeLeft = 0 →
      (appPomodoroStep t).1.isActive = false
      ∧ (appPomodoroStep t).1.mode = flipMode t.mode
      ∧ (appPomodoroStep t).1.timeLeft
          = (match flipMode t.mode with
             | TimerMode.breakTime => 5 * 60
             | TimerMode.study => 25 * 60)
      ∧ (appPomodoroStep t).2 = some NotifType.finish
      ∧ (handleTimerExpired t).1 = (appPomodoroStep t).1
      ∧ (handleTimerExpired t).2 = NotifType.finish := by
  intro t h
  cases t with
  | mk isActive timeLeft mode =>
    simp only at h
    subst h
    cases isActive <;> cases mode <;> decide

/-- C4 witness: an active study timer at zero becomes an inactive break
timer of 5 minutes with an end-type notification. -/
theorem pomodoro_alternation_witness :
    (appPomodoroStep ⟨true, 0, TimerMode.study⟩).1.isActive = false
    ∧ (appPomodoroStep ⟨true, 0, TimerMode.study⟩).1.mode = flipMode TimerMode.study
    ∧ (appPomodoroStep ⟨true, 0, TimerMode.study⟩).1.timeLeft
        = (match flipMode TimerMode.study with
           | TimerMode.breakTime => 5 * 60
           | TimerMode.study => 25 * 60)
    ∧ (appPomodoroStep ⟨true, 0, TimerMode.study⟩).2 = some NotifType.finish
    ∧ (handleTimerExpired ⟨true, 0, TimerMode.study⟩).1
        = (appPomodoroStep ⟨true, 0, TimerMode.study⟩).1
    ∧ (handleTimerExpired ⟨true, 0, TimerMode.study⟩).2 = NotifType.finish :=
  pomodoro_alternation ⟨true, 0, TimerMode.study⟩ rfl

/-! Claim C5: behavioral equivalence of the near-duplicate App copies. -/

/-- C5 counterexample: the copy in `src/unnamed/part_001` is not
behaviorally equivalent to `src/App.tsx`.  Starting both engines from
their initial guard state on two sessions sharing a start minute, the
first polls agree but the second poll of the same minute fires the start
alert of session `a` again in `src/App.tsx` while `part_001` fires
nothing; the polling periods (5000 ms versus 10000 ms) differ as well. -/
theorem part001_copy_divergence_counterexample :
    let S : List Schedule :=
      [⟨"p", "Plan", [⟨"a", "Math", "Monday", "09:00", "10:00"⟩,
                      ⟨"b", "Physics", "Monday", "09:00", "11:00"⟩], 0⟩]
    let a2 := appTick S "Monday" "09:00" (appTick S "Monday" "09:00" none).2
    let p2 := part001Tick S "Monday" "09:00" (part001Tick S "Monday" "09:00" []).2
    a2.1 = [⟨"a", Boundary.start⟩] ∧ p2.1 = []
      ∧ part001PollIntervalMs ≠ appPollIntervalMs := by decide

/-- C5 (amended): the single-marker copies of the engine — in
`src/unnamed/part_000`, `src/index.tsx`, `src/unnamed/part_002` and
`src/unnamed/part_004` — are behaviorally equivalent to `src/App.tsx`
for every schedule list, clock reading and prior guard state, with the
same 5000 ms polling period; the record-keyed copy in
`src/unnamed/part_001` is not (see the counterexample). -/
theorem single_marker_copies_equivalent :
    ∀ (S : List Schedule) (day t : String) (last : Option Marker),
      part000Tick S day t last = appTick S day t last
      ∧ indexTick S day t last = appTick S day t last
      ∧ part002Tick S day t last = appTick S day t last
      ∧ part004Tick S day t last = appTick S day t last
      ∧ part000PollIntervalMs = appPollIntervalMs
      ∧ indexPollIntervalMs = appPollIntervalMs
      ∧ part002PollIntervalMs = appPollIntervalMs
      ∧ part004PollIntervalMs = appPollIntervalMs :=
  fun _ _ _ _ => ⟨rfl, rfl, rfl, rfl, rfl, rfl, rfl, rfl⟩

/-! Claim C6: schedule persistence. -/

/-- C6: every schedule-list mutation that changes state serializes the
entire new list to storage under the storage key (the Sync to Local
Storage effect), the guarded early returns leave both the list and the
storage untouched, and the startup initializer restores the stored list,
falling back to the empty list when the stored value is missing or
cannot be parsed. -/
theorem schedule_persistence :
    ∀ (st : StoredValue) (S : List Schedule) (m : Mutation) (l : List Schedule),
      ((persistStep st S m).2 = StoredValue.val (persistStep st S m).1
        ∨ ((persistStep st S m).1 = S ∧ (persistStep st S m).2 = st))
      ∧ loadSchedules (StoredValue.val l) = l
      ∧ loadSchedules StoredValue.absent = []
      ∧ loadSchedules StoredValue.corrupt = [] := by
  intro st S m l
  refine ⟨?_, rfl, rfl, rfl⟩
  cases m with
  | create id name now =>
    cases h : (name.trim == "")
    · left
      simp [persistStep, mutationWrites, h]
    · right
      constructor
      · simp [persistStep, applyMutation, handleCreateSchedule, mutationWrites, h]
      · simp [persistStep, mutationWrites, h]
  | delete id =>
    left
    simp [persistStep, mutationWrites]
  | addSession aid newId subject day st2 en =>
    cases aid with
    | none =>
      right
      constructor
      · simp [persistStep, applyMutation, addSessionToActive, mutationWrites]
      · simp [persistStep, mutationWrites]
    | some a =>
      left
      simp [persistStep, mutationWrites]
  | removeSession aid sid =>
    left
    simp [persistStep, mutationWrites]

/-! Claim C7: the notification dispatch. -/

/-- C7: a session start or end alert (a `triggerNotification` call with
`system = true`) always sets the in-app toast, plays the audio cue and
issues the vibration cue exactly on vibration-capable platforms, and it
posts an OS-level system notification if and only if the recorded
permission is granted; with any other permission no system notification
is attempted while the toast and the audio and haptic cues still occur. -/
theorem notification_dispatch :
    ∀ (perm : PermissionState) (canVibrate : Bool) (msg : String),
      (triggerNotificationDispatch perm canVibrate msg true).toast = some msg
      ∧ (triggerNotificationDispatch perm canVibrate msg true).audioPlayed = true
      ∧ (triggerNotificationDispatch perm canVibrate msg true).vibrated = canVibrate
      ∧ ((triggerNotificationDispatch perm canVibrate msg true).systemNotificationPosted = true
          ↔ perm = PermissionState.granted) := by
  intro perm canVibrate msg
  cases perm <;> simp [triggerNotificationDispatch]

/-! Claim C8: the polling periods. -/

/-- C8: the polling interval of the notification engine is a constant
between 5 and 10 seconds inclusive in `src/App.tsx` and in every
near-duplicate copy (`src/index.tsx`, `src/unnamed/part_000`,
`part_001`, `part_002`, `part_004`). -/
theorem poll_interval_bounds :
    (5000 ≤ appPollIntervalMs ∧ appPollIntervalMs ≤ 10000)
    ∧ (5000 ≤ indexPollIntervalMs ∧ indexPollIntervalMs ≤ 10000)
    ∧ (5000 ≤ part000PollIntervalMs ∧ part000PollIntervalMs ≤ 10000)
    ∧ (5000 ≤ part001PollIntervalMs ∧ part001PollIntervalMs ≤ 10000)
    ∧ (5000 ≤ part002PollIntervalMs ∧ part002PollIntervalMs ≤ 10000)
    ∧ (5000 ≤ part004PollIntervalMs ∧ part004PollIntervalMs ≤ 10000) := by decide

/-! Claim C9: the frame property of session insertion. -/

/-- C9: `addSessionToActive` leaves the schedule list unchanged when the
active id is `null`; otherwise it preserves the length, appends exactly
the one new session (the given fields under the fresh id) to the end of
the sessions of each position holding the active id while leaving that
schedule's other fields intact, returns every other position unchanged,
and leaves the whole list unchanged when no schedule carries the active
id. -/
theorem addSessionToActive_frame :
    ∀ (aid newId subject day startTime endTime : String) (S : List Schedule),
      addSessionToActive none newId subject day startTime endTime S = S
      ∧ (addSessionToActive (some aid) newId subject day startTime endTime S).length
          = S.length
      ∧ (∀ i : Nat,
          (addSessionToActive (some aid) newId subject day startTime endTime S)[i]?
            = (S[i]?).map (fun s =>
                if s.id == aid then
                  { s with sessions :=
                      s.sessions ++ [⟨newId, subject, day, startTime, endTime⟩] }
                else s))
      ∧ ((∀ s ∈ S, s.id ≠ aid)
          → addSessionToActive (some aid) newId subject day startTime endTime S = S) := by
  intro aid newId subject day startTime endTime S
  refine ⟨rfl, ?_, ?_, ?_⟩
  · simp [addSessionToActive]
  · intro i
    simp [addSessionToActive, List.getElem?_map]
  · intro h
    show S.map _ = S
    have h2 : ∀ s ∈ S,
        (if s.id == aid then
          { s with sessions := s.sessions ++ [⟨newId, subject, day, startTime, endTime⟩] }
        else s) = s := by
      intro s hs
      rw [if_neg]
      intro hc
      exact h s hs (beq_iff_eq.mp hc)
    rw [List.map_congr_left h2, List.map_id']

/-- C9 witness: with an active id carried by no schedule, the list is
unchanged. -/
theorem addSessionToActive_frame_witness :
    addSessionToActive (some "zz") "n1" "Math" "Monday" "09:00" "10:00"
        [⟨"p", "Plan", [], 0⟩] = [⟨"p", "Plan", [], 0⟩] :=
  (addSessionToActive_frame "zz" "n1" "Math" "Monday" "09:00" "10:00"
      [⟨"p", "Plan", [], 0⟩]).2.2.2 (by decide)

/-! Claim C10: totality of the tutor call. -/

/-- C10: `getTutorResponse` always returns a string (the Lean function
is total on the modelled API outcomes): a thrown API error, a response
with no text and a response with empty text all map to the fixed
fallback message, and any other response maps to its own text. -/
theorem getTutorResponse_total :
    ∀ (e msg : String),
      getTutorResponse (ApiOutcome.failure e) = fallbackMessage
      ∧ getTutorResponse (ApiOutcome.response none) = fallbackMessage
      ∧ getTutorResponse (ApiOutcome.response (some "")) = fallbackMessage
      ∧ (msg ≠ "" → getTutorResponse (ApiOutcome.response (some msg)) = msg) := by
  intro e msg
  refine ⟨rfl, rfl, by simp [getTutorResponse], ?_⟩
  intro h
  simp [getTutorResponse, h]

/-- C10 witness: a nonempty response text is returned verbatim. -/
theorem getTutorResponse_total_witness :
    getTutorResponse (ApiOutcome.response (some "Mitochondria")) = "Mitochondria" :=
  (getTutorResponse_total "err" "Mitochondria").2.2.2 (by decide)

end MedQuest
